import Mathlib

/-!
Shallow embedding of the NewspaperBrowser backend (Python/FastAPI/Supabase)
ingestion and browse layers, and proofs of the specification claims.

The record store is modelled as explicit in-memory state (lists of rows);
each repository method becomes a Lean function on that state, translated
from `src/backend/app/repositories` and `src/backend/app/routes`.
UUIDs are modelled as `Nat` identities, dates as opaque `String`s, and
JSON sub-documents as Lean structures.  Fallible store calls return
`Except`.
-/

namespace NewspaperBrowser

/-- The persisted job progress structure
`\x7bpages_total, pages_processed, pages_succeeded, pages_failed, current_stage, errors\x7d`
(spec section 6; defaulted in `models/db/retrieval.py` and in
`IngestJobRepository.increment_progress`).  Counters are Python ints,
modelled as `Int`. -/
structure Progress where
  pages_total : Int
  pages_processed : Int
  pages_succeeded : Int
  pages_failed : Int
  current_stage : String
  errors : List String
deriving Repr, DecidableEq

/-- Row of the `ingest_jobs` table (`models/db/retrieval.py`: `IngestJob`).
`progress` is a JSON dict in the source; `none` here models a falsy blob
(absent or empty dict), which is exactly what `job.progress or \x7b...\x7d`
tests in `increment_progress`.  Timestamps are irrelevant to the claims
and omitted. -/
structure IngestJob where
  id : Nat
  idempotency_key : String
  issue_id : Option Nat
  status : String
  progress : Option Progress
  error_message : Option String
deriving Repr, DecidableEq

/-- State of the `ingest_jobs` table. -/
structure JobStore where
  jobs : List IngestJob
deriving Repr, DecidableEq

/-- `BaseRepository.get_by_id` specialised to ingest jobs: select the row
whose `id` matches (`base.py` lines 33-53). -/
def JobStore.get_by_id (s : JobStore) (id : Nat) : Option IngestJob :=
  s.jobs.find? (fun j => j.id == id)

/-- The partial-update payload built by `IngestJobRepository.update_job`
(`ingest_jobs.py` lines 59-91): a field is `none` exactly when the caller
omitted it, in which case it is absent from `update_data`. -/
structure JobUpdateData where
  issue_id : Option Nat
  status : Option String
  progress : Option Progress
  error_message : Option String
deriving Repr, DecidableEq

/-- Effect of `BaseRepository.update` on one row: fields present in the
payload overwrite the column, absent fields are untouched (`base.py`
lines 90-97 drop `None` values before the store call, so a column can
never be written to null through this path). -/
def IngestJob.applyUpdate (j : IngestJob) (u : JobUpdateData) : IngestJob :=
  { j with
    issue_id := match u.issue_id with
      | some v => some v
      | none => j.issue_id
    status := match u.status with
      | some v => v
      | none => j.status
    progress := match u.progress with
      | some v => some v
      | none => j.progress
    error_message := match u.error_message with
      | some v => some v
      | none => j.error_message }

/-- `BaseRepository.update` for ingest jobs (`base.py` lines 79-103):
update the matching row and return it; raise (`Except.error`) when the
store reports no affected row. -/
def JobStore.update (s : JobStore) (id : Nat) (u : JobUpdateData) :
    Except String (JobStore × IngestJob) :=
  match s.jobs.find? (fun j => j.id == id) with
  | none => .error ("Failed to update record " ++ toString id ++ " in ingest_jobs")
  | some j =>
      .ok (⟨s.jobs.map (fun x => if x.id == id then x.applyUpdate u else x)⟩,
           j.applyUpdate u)

/-- `IngestJobRepository.update_job` (`ingest_jobs.py` lines 59-91):
builds `update_data` from the supplied (non-`None`) arguments only, then
delegates to the generic update. -/
def JobStore.update_job (s : JobStore) (job_id : Nat)
    (issue_id : Option Nat) (status : Option String)
    (progress : Option Progress) (error_message : Option String) :
    Except String (JobStore × IngestJob) :=
  s.update job_id
    { issue_id := issue_id
      status := status
      progress := progress
      error_message := error_message }

/-- Python truthiness of the `error` argument: `if error:` is taken for a
non-`None`, non-empty string. -/
def pythonTruthy (error : Option String) : Bool :=
  match error with
  | none => false
  | some s => s != ""

/-- The default progress blob built when `job.progress` is falsy
(`ingest_jobs.py` lines 120-127). -/
def defaultProgress (pages_total : Int) : Progress :=
  { pages_total := pages_total
    pages_processed := 0
    pages_succeeded := 0
    pages_failed := 0
    current_stage := "initializing"
    errors := [] }

/-- Python `l[-10:]`: the last `n` elements of a list. -/
def takeLast (n : Nat) (l : List α) : List α :=
  l.drop (l.length - n)

/-- The pure read-modify phase of `IngestJobRepository.increment_progress`
(`ingest_jobs.py` lines 119-140): merge the incoming counters into the
job's current progress blob. -/
def computeProgress (job : IngestJob) (pages_processed pages_total : Int)
    (current_stage : String) (error : Option String) : Progress :=
  let progress := job.progress.getD (defaultProgress pages_total)
  let progress := { progress with
    pages_processed := pages_processed
    pages_total := pages_total
    current_stage := current_stage }
  if pythonTruthy error then
    { progress with
      pages_failed := progress.pages_failed + 1
      errors := takeLast 10 (progress.errors ++ [error.getD ""]) }
  else
    { progress with pages_succeeded := progress.pages_succeeded + 1 }

/-- `IngestJobRepository.increment_progress` (`ingest_jobs.py` lines
93-142): read the job, merge counters, write the whole progress blob back
through `update_job`. -/
def JobStore.increment_progress (s : JobStore) (job_id : Nat)
    (pages_processed pages_total : Int) (current_stage : String)
    (error : Option String) : Except String (JobStore × IngestJob) :=
  match s.get_by_id job_id with
  | none => .error ("Job " ++ toString job_id ++ " not found")
  | some job =>
      s.update_job job_id none none
        (some (computeProgress job pages_processed pages_total current_stage error))
        none

/-- Row of the `newspapers` table (`models/db/browse.py`: `Newspaper`);
only the fields the claims touch are kept beyond identity. -/
structure Newspaper where
  id : Nat
  name : String
deriving Repr, DecidableEq

/-- Row of the `issues` table (`models/db/browse.py`: `Issue`).  Dates are
opaque strings, the JSONB `metadata` an opaque optional string. -/
structure Issue where
  id : Nat
  newspaper_id : Nat
  issue_date : String
  num_pages : Int
  source_type : String
  source_external_id : Option String
  metadata : Option String
deriving Repr, DecidableEq

/-- Row of the `pages` table (`models/db/browse.py`: `Page`). -/
structure Page where
  id : Nat
  issue_id : Nat
  page_number : Int
  image_path : String
  ocr_text : Option String
  ingestion_status : String
deriving Repr, DecidableEq

/-- Insert payload of `IssueCreate` (`models/db/browse.py`). -/
structure IssueCreateData where
  newspaper_id : Nat
  issue_date : String
  num_pages : Int
  source_type : String
  source_external_id : Option String
  metadata : Option String
deriving Repr, DecidableEq

/-- State of the `issues` table together with the generator of row ids. -/
structure IssueStore where
  issues : List Issue
  next_id : Nat
deriving Repr, DecidableEq

/-- `IssueRepository.get_by_newspaper_and_date` (`issues.py` lines 68-92):
select the row matching the natural key `(newspaper_id, issue_date)`. -/
def IssueStore.get_by_newspaper_and_date (s : IssueStore)
    (newspaper_id : Nat) (issue_date : String) : Option Issue :=
  s.issues.find? (fun i => i.newspaper_id == newspaper_id && i.issue_date == issue_date)

/-- `BaseRepository._execute_upsert` for issues with
`on_conflict="newspaper_id,issue_date"` (`base.py` lines 150-170): insert
the payload, or on a natural-key conflict overwrite the conflicting row's
payload columns, keeping its generated id.  Payload fields excluded by
`exclude_none` leave the stored column untouched. -/
def IssueStore.upsert (s : IssueStore) (d : IssueCreateData) : IssueStore × Issue :=
  match s.issues.find?
      (fun i => i.newspaper_id == d.newspaper_id && i.issue_date == d.issue_date) with
  | some existing =>
      let merged : Issue :=
        { existing with
          num_pages := d.num_pages
          source_type := d.source_type
          source_external_id := match d.source_external_id with
            | some v => some v
            | none => existing.source_external_id
          metadata := match d.metadata with
            | some v => some v
            | none => existing.metadata }
      (⟨s.issues.map (fun i =>
          if i.newspaper_id == d.newspaper_id && i.issue_date == d.issue_date
          then merged else i), s.next_id⟩, merged)
  | none =>
      let created : Issue :=
        { id := s.next_id
          newspaper_id := d.newspaper_id
          issue_date := d.issue_date
          num_pages := d.num_pages
          source_type := d.source_type
          source_external_id := d.source_external_id
          metadata := d.metadata }
      (⟨s.issues ++ [created], s.next_id + 1⟩, created)

/-- `IssueRepository.create_or_get` (`issues.py` lines 21-66): fast-path
read by natural key, else conflict-aware upsert. -/
def IssueStore.create_or_get (s : IssueStore) (newspaper_id : Nat)
    (issue_date : String) (num_pages : Int) (source_type : String)
    (source_external_id : Option String) (metadata : Option String) :
    IssueStore × Issue :=
  match s.get_by_newspaper_and_date newspaper_id issue_date with
  | some existing => (s, existing)
  | none =>
      s.upsert
        { newspaper_id := newspaper_id
          issue_date := issue_date
          num_pages := num_pages
          source_type := source_type
          source_external_id := source_external_id
          metadata := metadata }

/-- Insert payload of `PageCreate` (`models/db/browse.py`). -/
structure PageCreateData where
  issue_id : Nat
  page_number : Int
  image_path : String
  ingestion_status : String
deriving Repr, DecidableEq

/-- State of the `pages` table together with the generator of row ids. -/
structure PageStore where
  pages : List Page
  next_id : Nat
deriving Repr, DecidableEq

/-- `PageRepository.get_by_issue_and_number` (`pages.py` lines 20-44). -/
def PageStore.get_by_issue_and_number (s : PageStore)
    (issue_id : Nat) (page_number : Int) : Option Page :=
  s.pages.find? (fun p => p.issue_id == issue_id && p.page_number == page_number)

/-- `BaseRepository._execute_upsert` for pages with
`on_conflict="issue_id,page_number"`; `PageCreate` has no optional field,
so the whole payload overwrites on conflict. -/
def PageStore.upsert (s : PageStore) (d : PageCreateData) : PageStore × Page :=
  match s.pages.find?
      (fun p => p.issue_id == d.issue_id && p.page_number == d.page_number) with
  | some existing =>
      let merged : Page :=
        { existing with
          image_path := d.image_path
          ingestion_status := d.ingestion_status }
      (⟨s.pages.map (fun p =>
          if p.issue_id == d.issue_id && p.page_number == d.page_number
          then merged else p), s.next_id⟩, merged)
  | none =>
      let created : Page :=
        { id := s.next_id
          issue_id := d.issue_id
          page_number := d.page_number
          image_path := d.image_path
          ocr_text := none
          ingestion_status := d.ingestion_status }
      (⟨s.pages ++ [created], s.next_id + 1⟩, created)

/-- `PageRepository.create_or_get` (`pages.py` lines 46-84). -/
def PageStore.create_or_get (s : PageStore) (issue_id : Nat)
    (page_number : Int) (image_path : String) (ingestion_status : String) :
    PageStore × Page :=
  match s.get_by_issue_and_number issue_id page_number with
  | some existing => (s, existing)
  | none =>
      s.upsert
        { issue_id := issue_id
          page_number := page_number
          image_path := image_path
          ingestion_status := ingestion_status }

/-- `BaseRepository.list_all` for issues (`base.py` lines 114-133):
skip `offset` rows of the table, return at most `limit`. -/
def list_all (available : List Issue) (limit offset : Nat) : List Issue :=
  (available.drop offset).take limit

/-- The `PaginatedIssuesResponse` payload (`models/api/responses.py`),
with items kept as issue rows. -/
structure PaginatedIssuesResponse where
  items : List Issue
  total : Nat
  limit : Nat
  offset : Nat
  has_more : Bool
deriving Repr, DecidableEq

/-- `GET /api/issues` handler `list_issues` (`routes/issues.py` lines
32-74), unfiltered branch: ask the repository for `limit + 1` rows, trim
the extra row, derive `has_more` and the approximate `total`.
`available` is the issues table content in store order. -/
def list_issues (available : List Issue) (limit offset : Nat) :
    PaginatedIssuesResponse :=
  let issues := list_all available (limit + 1) offset
  let has_more : Bool := issues.length > limit
  let items := issues.take limit
  let total := offset + items.length + (if has_more then 1 else 0)
  { items := items
    total := total
    limit := limit
    offset := offset
    has_more := has_more }

/-- An HTTP error response raised by a route handler
(`HTTPException(status_code, detail)`). -/
structure HttpError where
  status_code : Nat
  detail : String
deriving Repr, DecidableEq

/-- The `IssueDetailResponse` payload (`models/api/responses.py`):
the issue row with its newspaper and its pages embedded. -/
structure IssueDetailResponse where
  issue : Issue
  newspaper : Newspaper
  pages : List Page
deriving Repr, DecidableEq

/-- Ascending page-number order used by the store's
`order("page_number", desc=False)` clause. -/
def pageOrder (a b : Page) : Prop := a.page_number ≤ b.page_number

instance : DecidableRel pageOrder :=
  fun a b => inferInstanceAs (Decidable (a.page_number ≤ b.page_number))

instance : IsTotal Page pageOrder :=
  ⟨fun a b => Int.le_total a.page_number b.page_number⟩

instance : IsTrans Page pageOrder :=
  ⟨fun _ _ _ hab hbc => le_trans hab hbc⟩

/-- `PageRepository.list_by_issue` with ordering (`pages.py` lines
135-158): the pages of one issue, ordered by page number ascending. -/
def PageStore.list_by_issue (s : PageStore) (issue_id : Nat) : List Page :=
  List.insertionSort pageOrder (s.pages.filter (fun p => p.issue_id == issue_id))

/-- The browse tables reachable from the issue-detail endpoint. -/
structure BrowseStore where
  newspapers : List Newspaper
  issues : List Issue
  page_store : PageStore
deriving Repr, DecidableEq

/-- `BaseRepository.get_by_id` for issues. -/
def BrowseStore.issue_by_id (s : BrowseStore) (id : Nat) : Option Issue :=
  s.issues.find? (fun i => i.id == id)

/-- `BaseRepository.get_by_id` for newspapers. -/
def BrowseStore.newspaper_by_id (s : BrowseStore) (id : Nat) : Option Newspaper :=
  s.newspapers.find? (fun n => n.id == id)

/-- `GET /api/issues/\x7bissue_id\x7d` handler `get_issue_detail`
(`routes/issues.py` lines 77-114): 404 when the issue is absent, 500 when
its newspaper row is missing, otherwise the composed detail response. -/
def get_issue_detail (s : BrowseStore) (issue_id : Nat) :
    Except HttpError IssueDetailResponse :=
  match s.issue_by_id issue_id with
  | none => .error ⟨404, "Issue not found"⟩
  | some issue =>
      match s.newspaper_by_id issue.newspaper_id with
      | none => .error ⟨500, "Associated newspaper not found"⟩
      | some newspaper =>
          .ok ⟨issue, newspaper, s.page_store.list_by_issue issue_id⟩

/-- `PdfDocumentProcessor` configuration (`document_processor.py` lines
30-46): resolution and raster format. -/
structure PdfDocumentProcessor where
  dpi : Nat
  image_format : String
deriving Repr, DecidableEq

/-- An in-memory rasterized page as handed back by the external
`pdf2image` library (a PIL image); opaque except for its dimensions. -/
structure PILImage where
  width : Nat
  height : Nat
deriving Repr, DecidableEq

/-- The wrapped document-processing failure raised by
`PdfDocumentProcessor.process`: `Exception(f"Failed to process PDF: ...")
from e` carries a message and the original cause. -/
structure WrappedError where
  message : String
  cause : String
deriving Repr, DecidableEq

/-- `PdfDocumentProcessor.process` (`document_processor.py` lines 48-80).
The external calls are parameters: `convert_from_bytes` rasterizes the
PDF bytes at the configured dpi and (lower-cased) format and may fail;
`save` encodes one PIL image in the configured format (`image.save` into
a `BytesIO` buffer).  On a rasterization error the whole call fails with
the single wrapped error and returns nothing else; on success it returns
the encoded pages in page order. -/
def PdfDocumentProcessor.process (p : PdfDocumentProcessor)
    (convert_from_bytes : List Nat → Nat → String → Except String (List PILImage))
    (save : PILImage → String → List Nat)
    (file_bytes : List Nat) : Except WrappedError (List (List Nat)) :=
  match convert_from_bytes file_bytes p.dpi p.image_format.toLower with
  | .error e => .error ⟨"Failed to process PDF: " ++ e, e⟩
  | .ok images => .ok (images.map (fun image => save image p.image_format))

/-- `get_document_processor` (`document_processor.py` lines 84-91):
the default configuration, 300 DPI and PNG. -/
def get_document_processor : PdfDocumentProcessor :=
  { dpi := 300, image_format := "PNG" }

/-- Output projection of a fallible call: the payload when it succeeded,
nothing when it raised. -/
def exceptOutput {ε α : Type} : Except ε α → Option α
  | .ok v => some v
  | .error _ => none

/-- A stored job with a populated progress blob, used to exercise the
ingest-job operations on concrete inputs. -/
def probeJob : IngestJob :=
  ⟨1, "job-key", none, "processing", some ⟨5, 1, 1, 0, "processing", ["old"]⟩, none⟩

/-- A one-job store around `probeJob`. -/
def probeStore : JobStore := ⟨[probeJob]⟩

/-- The progress blob produced by a failing increment on `probeStore`. -/
def c1ProgressAfter : Progress := ⟨5, 2, 1, 1, "processing", ["old", "boom"]⟩

/-- The job row produced by a failing increment on `probeStore`. -/
def c1JobAfter : IngestJob := ⟨1, "job-key", none, "processing", some c1ProgressAfter, none⟩

/-- The store produced by a failing increment on `probeStore`. -/
def c1StoreAfter : JobStore := ⟨[c1JobAfter]⟩

/-- A stored job already in the terminal `completed` status. -/
def c8Store : JobStore := ⟨[⟨1, "terminal-key", none, "completed", none, none⟩]⟩

/-- Job read by both racing workers in the lost-update interleaving. -/
def c10Job : IngestJob :=
  ⟨1, "race-key", none, "processing", some ⟨2, 0, 0, 0, "processing", []⟩, none⟩

/-- Store both racing workers read from. -/
def c10Store : JobStore := ⟨[c10Job]⟩

/-- Job row after the first write (one success counted). -/
def c10MidJob : IngestJob :=
  ⟨1, "race-key", none, "processing", some ⟨2, 1, 1, 0, "processing", []⟩, none⟩

/-- Store after the first write. -/
def c10Mid : JobStore := ⟨[c10MidJob]⟩

/-- Job row after the second, stale write: still only one success counted. -/
def c10FinalJob : IngestJob :=
  ⟨1, "race-key", none, "processing", some ⟨2, 2, 1, 0, "processing", []⟩, none⟩

/-- Store after the second, stale write. -/
def c10Final : JobStore := ⟨[c10FinalJob]⟩

/-- Job row after two sequential (non-racing) increments: both successes
counted. -/
def c10SeqJob : IngestJob :=
  ⟨1, "race-key", none, "processing", some ⟨2, 2, 2, 0, "processing", []⟩, none⟩

/-- Store after two sequential increments. -/
def c10Seq : JobStore := ⟨[c10SeqJob]⟩

/-- `n` distinct stored issues, for exercising pagination. -/
def c3Avail (n : Nat) : List Issue :=
  (List.range n).map (fun k => ⟨k, 0, "d", 0, "upload", none, none⟩)

/-- A newspaper row for the detail-endpoint scenarios. -/
def c4Newspaper : Newspaper := ⟨7, "The Daily Probe"⟩

/-- An issue whose newspaper row exists. -/
def c4Issue : Issue := ⟨3, 7, "1900-01-01", 2, "upload", none, none⟩

/-- An issue whose newspaper row is missing (dangling reference). -/
def c4IssueOrphan : Issue := ⟨4, 99, "1900-01-02", 2, "upload", none, none⟩

/-- Pages of issue 3, stored out of page order. -/
def c4PageStore : PageStore :=
  ⟨[⟨21, 3, 2, "p2.png", none, "pending"⟩, ⟨20, 3, 1, "p1.png", none, "pending"⟩], 22⟩

/-- Browse store with one intact issue, one orphaned issue, two pages. -/
def c4Store : BrowseStore := ⟨[c4Newspaper], [c4Issue, c4IssueOrphan], c4PageStore⟩

/-- Job row after a partial update of `probeStore` supplying only
`issue_id` and `error_message`. -/
def c5JobAfter : IngestJob :=
  ⟨1, "job-key", some 9, "processing", some ⟨5, 1, 1, 0, "processing", ["old"]⟩,
    some "msg"⟩

/-- Store after that partial update. -/
def c5StoreAfter : JobStore := ⟨[c5JobAfter]⟩

/-- A job with every nullable field set, for the no-null-clear claim. -/
def c9Job : IngestJob :=
  ⟨2, "k9", some 4, "processing", some ⟨1, 1, 1, 0, "s", []⟩, some "prev"⟩

/-- A one-job store around `c9Job`. -/
def c9Store : JobStore := ⟨[c9Job]⟩

/-- A rasterizer stub that succeeds with two pages. -/
def okConvert : List Nat → Nat → String → Except String (List PILImage) :=
  fun _ _ _ => .ok [⟨10, 20⟩, ⟨30, 40⟩]

/-- A rasterizer stub that fails, standing for a pdf2image error. -/
def failConvert : List Nat → Nat → String → Except String (List PILImage) :=
  fun _ _ _ => .error "poppler exploded"

/-- An encoder stub for `image.save`. -/
def probeSave : PILImage → String → List Nat :=
  fun img _ => [img.width, img.height]

/-- Progress blob actually produced by an empty-string error increment on
`probeStore`: the success branch is taken. -/
def c1CtxProgress : Progress := ⟨5, 2, 2, 0, "processing", ["old"]⟩

/-- Job row actually produced by an empty-string error increment. -/
def c1CtxJob : IngestJob := ⟨1, "job-key", none, "processing", some c1CtxProgress, none⟩

/-- Store actually produced by an empty-string error increment. -/
def c1CtxStore : JobStore := ⟨[c1CtxJob]⟩

/-- The last `n` elements of a list number at most `n`. -/
theorem takeLast_length_le {α : Type} (n : Nat) (l : List α) :
    (takeLast n l).length ≤ n := by
  simp [takeLast]
  omega

/-- After the generic row update, reading the job id back yields exactly
the updated row. -/
theorem get_by_id_after_update (s : JobStore) (job_id : Nat) (u : JobUpdateData)
    (j : IngestJob) (hfind : s.jobs.find? (fun x => x.id == job_id) = some j) :
    JobStore.get_by_id
        ⟨s.jobs.map (fun x => if x.id == job_id then x.applyUpdate u else x)⟩ job_id =
      some (j.applyUpdate u) := by
  have hid : (j.id == job_id) = true := by
    have h := List.find?_some hfind
    simpa using h
  unfold JobStore.get_by_id
  rw [List.find?_map]
  have hcomp : ((fun x : IngestJob => x.id == job_id) ∘
      (fun x => if x.id == job_id then x.applyUpdate u else x)) =
      (fun x : IngestJob => x.id == job_id) := by
    funext x
    by_cases hx : (x.id == job_id) = true
    · simp [Function.comp, hx, IngestJob.applyUpdate]
    · simp [Function.comp, hx]
  rw [hcomp, hfind, Option.map_some', if_pos hid]

/-- Claim C1 (amended): for every job present in the store,
`increment_progress` with a falsy error (no error, or an empty error
string, per Python truthiness) increments `pages_succeeded` by exactly 1
and leaves `pages_failed` and the error list unchanged; with a truthy
(non-empty) error it increments `pages_failed` by exactly 1, leaves
`pages_succeeded` unchanged, and appends the error string keeping only
the 10 most recent entries (oldest dropped first, most recent last); in
both cases `pages_processed`, `pages_total` and `current_stage` are set
to the supplied values, and the returned row is the stored row. -/
theorem increment_progress_spec (s : JobStore) (job_id : Nat) (pp pt : Int)
    (stage : String) (error : Option String) (j : IngestJob) (s' : JobStore)
    (j' : IngestJob) (p' : Progress)
    (hj : s.get_by_id job_id = some j)
    (hcall : s.increment_progress job_id pp pt stage error = Except.ok (s', j'))
    (hp : j'.progress = some p') :
    s'.get_by_id job_id = some j' ∧
    p'.pages_processed = pp ∧
    p'.pages_total = pt ∧
    p'.current_stage = stage ∧
    (pythonTruthy error = true →
      p'.pages_failed = (j.progress.getD (defaultProgress pt)).pages_failed + 1 ∧
      p'.pages_succeeded = (j.progress.getD (defaultProgress pt)).pages_succeeded ∧
      p'.errors =
        takeLast 10 ((j.progress.getD (defaultProgress pt)).errors ++ [error.getD ""]) ∧
      p'.errors.length ≤ 10) ∧
    (pythonTruthy error = false →
      p'.pages_succeeded = (j.progress.getD (defaultProgress pt)).pages_succeeded + 1 ∧
      p'.pages_failed = (j.progress.getD (defaultProgress pt)).pages_failed ∧
      p'.errors = (j.progress.getD (defaultProgress pt)).errors) := by
  have hfind : s.jobs.find? (fun x => x.id == job_id) = some j := hj
  simp only [JobStore.increment_progress, JobStore.get_by_id, hfind, JobStore.update_job,
    JobStore.update, Except.ok.injEq, Prod.mk.injEq] at hcall
  obtain ⟨hs, hjj⟩ := hcall
  subst hs
  subst hjj
  simp only [IngestJob.applyUpdate, Option.some.injEq] at hp
  subst hp
  refine ⟨get_by_id_after_update s job_id _ j hfind, ?_, ?_, ?_, ?_, ?_⟩
  · cases htr : pythonTruthy error <;> simp [computeProgress, htr]
  · cases htr : pythonTruthy error <;> simp [computeProgress, htr]
  · cases htr : pythonTruthy error <;> simp [computeProgress, htr]
  · intro htr
    refine ⟨by simp [computeProgress, htr], by simp [computeProgress, htr],
      by simp [computeProgress, htr], ?_⟩
    have h10 := takeLast_length_le 10
      ((j.progress.getD (defaultProgress pt)).errors ++ [error.getD ""])
    simpa [computeProgress, htr] using h10
  · intro hf
    exact ⟨by simp [computeProgress, hf], by simp [computeProgress, hf],
      by simp [computeProgress, hf]⟩

/-- Claim C1 counterexample: the error argument `some ""` is supplied yet
`increment_progress` takes the success branch (Python `if error:` is false
for the empty string), so `pages_failed` is not incremented and
`pages_succeeded` does not stay unchanged. -/
theorem c1_counterexample :
    JobStore.increment_progress probeStore 1 2 5 "processing" (some "") =
      Except.ok (c1CtxStore, c1CtxJob) ∧
    some "" ≠ (none : Option String) ∧
    c1CtxJob.progress.map Progress.pages_failed ≠
      probeJob.progress.map (fun p => p.pages_failed + 1) ∧
    c1CtxJob.progress.map Progress.pages_succeeded ≠
      probeJob.progress.map Progress.pages_succeeded := by
  exact ⟨rfl, by decide, by decide, by decide⟩

/-- Claim C1 witness: the amended theorem applied to a concrete store and
a concrete non-empty error. -/
theorem c1_witness :
    c1StoreAfter.get_by_id 1 = some c1JobAfter ∧
    c1ProgressAfter.pages_processed = 2 ∧
    c1ProgressAfter.pages_total = 5 ∧
    c1ProgressAfter.current_stage = "processing" ∧
    (pythonTruthy (some "boom") = true →
      c1ProgressAfter.pages_failed =
        (probeJob.progress.getD (defaultProgress 5)).pages_failed + 1 ∧
      c1ProgressAfter.pages_succeeded =
        (probeJob.progress.getD (defaultProgress 5)).pages_succeeded ∧
      c1ProgressAfter.errors =
        takeLast 10 ((probeJob.progress.getD (defaultProgress 5)).errors ++
          [(some "boom").getD ""]) ∧
      c1ProgressAfter.errors.length ≤ 10) ∧
    (pythonTruthy (some "boom") = false →
      c1ProgressAfter.pages_succeeded =
        (probeJob.progress.getD (defaultProgress 5)).pages_succeeded + 1 ∧
      c1ProgressAfter.pages_failed =
        (probeJob.progress.getD (defaultProgress 5)).pages_failed ∧
      c1ProgressAfter.errors = (probeJob.progress.getD (defaultProgress 5)).errors) :=
  increment_progress_spec probeStore 1 2 5 "processing" (some "boom") probeJob
    c1StoreAfter c1JobAfter c1ProgressAfter rfl rfl rfl

/-- Claim C8: the pending-processing-terminal ordering is not enforced:
on a job stored in the terminal `completed` status, `update_job`
supplying `processing` succeeds and writes that status. -/
theorem c8_no_terminal_status_guard :
    (c8Store.get_by_id 1).map IngestJob.status = some "completed" ∧
    c8Store.update_job 1 none (some "processing") none none =
      Except.ok (⟨[⟨1, "terminal-key", none, "processing", none, none⟩]⟩,
        ⟨1, "terminal-key", none, "processing", none, none⟩) ∧
    (exceptOutput (c8Store.update_job 1 none (some "processing") none none)).map
        (fun r => r.2.status) = some "processing" := by
  exact ⟨rfl, rfl, rfl⟩

/-- Claim C10: `increment_progress` is a read-modify-write with no
transaction guard: when two calls both read the same stored job (the read
phase) and then write their merged blobs in turn (the write phase,
`update_job`), the first call's counter update is lost; the final
succeeded+failed count is 1 although both calls completed, whereas the
same two calls run sequentially count 2. -/
theorem c10_lost_update_interleaving :
    c10Store.get_by_id 1 = some c10Job ∧
    c10Store.update_job 1 none none
        (some (computeProgress c10Job 1 2 "processing" none)) none =
      Except.ok (c10Mid, c10MidJob) ∧
    c10Mid.update_job 1 none none
        (some (computeProgress c10Job 2 2 "processing" none)) none =
      Except.ok (c10Final, c10FinalJob) ∧
    c10FinalJob.progress.map (fun p => p.pages_succeeded + p.pages_failed) = some 1 ∧
    c10Store.increment_progress 1 1 2 "processing" none = Except.ok (c10Mid, c10MidJob) ∧
    c10Mid.increment_progress 1 2 2 "processing" none = Except.ok (c10Seq, c10SeqJob) ∧
    c10SeqJob.progress.map (fun p => p.pages_succeeded + p.pages_failed) = some 2 ∧
    (1 : Int) < 2 := by
  exact ⟨rfl, rfl, rfl, rfl, rfl, rfl, rfl, by decide⟩

/-- Claim C5: `update_job` is a partial update: each supplied field is
written with the supplied value, each omitted (`None`) field retains its
prior stored value; identity and idempotency key are untouched, and the
stored row equals the returned row. -/
theorem update_job_frame (s : JobStore) (job_id : Nat)
    (issue_id : Option Nat) (status : Option String) (progress : Option Progress)
    (error_message : Option String) (j : IngestJob) (s' : JobStore) (j' : IngestJob)
    (hj : s.get_by_id job_id = some j)
    (hcall : s.update_job job_id issue_id status progress error_message =
      Except.ok (s', j')) :
    j'.id = j.id ∧
    j'.idempotency_key = j.idempotency_key ∧
    (issue_id = none → j'.issue_id = j.issue_id) ∧
    (issue_id.isSome → j'.issue_id = issue_id) ∧
    (status = none → j'.status = j.status) ∧
    (status.isSome → some j'.status = status) ∧
    (progress = none → j'.progress = j.progress) ∧
    (progress.isSome → j'.progress = progress) ∧
    (error_message = none → j'.error_message = j.error_message) ∧
    (error_message.isSome → j'.error_message = error_message) ∧
    s'.get_by_id job_id = some j' := by
  have hfind : s.jobs.find? (fun x => x.id == job_id) = some j := hj
  simp only [JobStore.update_job, JobStore.update, hfind, Except.ok.injEq,
    Prod.mk.injEq] at hcall
  obtain ⟨hs, hjj⟩ := hcall
  subst hs
  subst hjj
  refine ⟨rfl, rfl, ?_, ?_, ?_, ?_, ?_, ?_, ?_, ?_,
    get_by_id_after_update s job_id _ j hfind⟩
  · intro h
    subst h
    simp [IngestJob.applyUpdate]
  · intro h
    cases hx : issue_id with
    | none => rw [hx] at h; simp at h
    | some v => simp [IngestJob.applyUpdate]
  · intro h
    subst h
    simp [IngestJob.applyUpdate]
  · intro h
    cases hx : status with
    | none => rw [hx] at h; simp at h
    | some v => simp [IngestJob.applyUpdate]
  · intro h
    subst h
    simp [IngestJob.applyUpdate]
  · intro h
    cases hx : progress with
    | none => rw [hx] at h; simp at h
    | some v => simp [IngestJob.applyUpdate]
  · intro h
    subst h
    simp [IngestJob.applyUpdate]
  · intro h
    cases hx : error_message with
    | none => rw [hx] at h; simp at h
    | some v => simp [IngestJob.applyUpdate]

/-- Claim C5 witness: the frame theorem applied to a partial update of a
concrete store that supplies only `issue_id` and `error_message`. -/
theorem c5_witness :
    c5JobAfter.id = probeJob.id ∧
    c5JobAfter.idempotency_key = probeJob.idempotency_key ∧
    ((some 9 : Option Nat) = none → c5JobAfter.issue_id = probeJob.issue_id) ∧
    ((some 9 : Option Nat).isSome → c5JobAfter.issue_id = some 9) ∧
    ((none : Option String) = none → c5JobAfter.status = probeJob.status) ∧
    ((none : Option String).isSome → some c5JobAfter.status = none) ∧
    ((none : Option Progress) = none → c5JobAfter.progress = probeJob.progress) ∧
    ((none : Option Progress).isSome → c5JobAfter.progress = none) ∧
    ((some "msg" : Option String) = none →
      c5JobAfter.error_message = probeJob.error_message) ∧
    ((some "msg" : Option String).isSome → c5JobAfter.error_message = some "msg") ∧
    c5StoreAfter.get_by_id 1 = some c5JobAfter :=
  update_job_frame probeStore 1 (some 9) none none (some "msg") probeJob
    c5StoreAfter c5JobAfter rfl rfl

/-- Claim C9: `update_job` (through the generic update that drops `None`
values) can never clear a stored field to null: a set `issue_id`,
`progress` or `error_message` stays set, and a field can only read null
afterwards when it was null before and was not supplied. -/
theorem update_job_never_clears (s : JobStore) (job_id : Nat)
    (issue_id : Option Nat) (status : Option String) (progress : Option Progress)
    (error_message : Option String) (j : IngestJob) (s' : JobStore) (j' : IngestJob)
    (hj : s.get_by_id job_id = some j)
    (hcall : s.update_job job_id issue_id status progress error_message =
      Except.ok (s', j')) :
    (j.issue_id.isSome → j'.issue_id.isSome) ∧
    (j.progress.isSome → j'.progress.isSome) ∧
    (j.error_message.isSome → j'.error_message.isSome) ∧
    (j'.issue_id = none → issue_id = none ∧ j.issue_id = none) ∧
    (j'.progress = none → progress = none ∧ j.progress = none) ∧
    (j'.error_message = none → error_message = none ∧ j.error_message = none) := by
  have hfind : s.jobs.find? (fun x => x.id == job_id) = some j := hj
  simp only [JobStore.update_job, JobStore.update, hfind, Except.ok.injEq,
    Prod.mk.injEq] at hcall
  obtain ⟨hs, hjj⟩ := hcall
  subst hs
  subst hjj
  refine ⟨?_, ?_, ?_, ?_, ?_, ?_⟩
  · intro h
    cases hx : issue_id with
    | none => simpa [IngestJob.applyUpdate, hx] using h
    | some v => simp [IngestJob.applyUpdate, hx]
  · intro h
    cases hx : progress with
    | none => simpa [IngestJob.applyUpdate, hx] using h
    | some v => simp [IngestJob.applyUpdate, hx]
  · intro h
    cases hx : error_message with
    | none => simpa [IngestJob.applyUpdate, hx] using h
    | some v => simp [IngestJob.applyUpdate, hx]
  · intro h
    cases hx : issue_id with
    | none => exact ⟨rfl, by simpa [IngestJob.applyUpdate, hx] using h⟩
    | some v => simp [IngestJob.applyUpdate, hx] at h
  · intro h
    cases hx : progress with
    | none => exact ⟨rfl, by simpa [IngestJob.applyUpdate, hx] using h⟩
    | some v => simp [IngestJob.applyUpdate, hx] at h
  · intro h
    cases hx : error_message with
    | none => exact ⟨rfl, by simpa [IngestJob.applyUpdate, hx] using h⟩
    | some v => simp [IngestJob.applyUpdate, hx] at h

/-- Claim C9 witness: the no-null-clear theorem applied to an all-omitted
update of a job whose nullable fields are all set. -/
theorem c9_witness :
    (c9Job.issue_id.isSome → c9Job.issue_id.isSome) ∧
    (c9Job.progress.isSome → c9Job.progress.isSome) ∧
    (c9Job.error_message.isSome → c9Job.error_message.isSome) ∧
    (c9Job.issue_id = none → (none : Option Nat) = none ∧ c9Job.issue_id = none) ∧
    (c9Job.progress = none → (none : Option Progress) = none ∧ c9Job.progress = none) ∧
    (c9Job.error_message = none →
      (none : Option String) = none ∧ c9Job.error_message = none) :=
  update_job_never_clears c9Store 2 none none none none c9Job c9Store c9Job rfl rfl

/-- Claim C2: two sequential create-or-get calls with the same natural
key (issue: newspaper and date; page: issue and page number) return
records with the same identity, whatever the non-key arguments; no second
row is produced for the key. -/
theorem create_or_get_idempotent
    (si : IssueStore) (nid : Nat) (date : String)
    (np1 np2 : Int) (st1 st2 : String) (se1 se2 m1 m2 : Option String)
    (sp : PageStore) (iid : Nat) (pn : Int) (ip1 ip2 ig1 ig2 : String) :
    ((si.create_or_get nid date np1 st1 se1 m1).1.create_or_get
        nid date np2 st2 se2 m2).2.id =
      (si.create_or_get nid date np1 st1 se1 m1).2.id ∧
    ((sp.create_or_get iid pn ip1 ig1).1.create_or_get iid pn ip2 ig2).2.id =
      (sp.create_or_get iid pn ip1 ig1).2.id := by
  constructor
  · cases h : si.get_by_newspaper_and_date nid date with
    | some e => simp [IssueStore.create_or_get, h]
    | none =>
        have hfind : si.issues.find?
            (fun i => i.newspaper_id == nid && i.issue_date == date) = none := h
        simp [IssueStore.create_or_get, IssueStore.get_by_newspaper_and_date,
          IssueStore.upsert, hfind, List.find?_append]
  · cases h : sp.get_by_issue_and_number iid pn with
    | some e => simp [PageStore.create_or_get, h]
    | none =>
        have hfind : sp.pages.find?
            (fun p => p.issue_id == iid && p.page_number == pn) = none := h
        simp [PageStore.create_or_get, PageStore.get_by_issue_and_number,
          PageStore.upsert, hfind, List.find?_append]

/-- Claim C3: the issue-list endpoint asks the repository for `limit + 1`
rows and trims the extra one, returns at most `limit` items, sets
`has_more` exactly when more than `limit` rows are available past the
offset, and reports `total = offset + returned + (1 if has_more)`;
concretely, `limit=10, offset=0` with 11 available issues gives
`has_more` and 10 items, with exactly 10 available gives no `has_more`. -/
theorem list_issues_pagination (available : List Issue) (limit offset : Nat)
    (h1 : 1 ≤ limit) (h2 : limit ≤ 100) :
    (list_issues available limit offset).items =
      (list_all available (limit + 1) offset).take limit ∧
    (list_issues available limit offset).items.length ≤ limit ∧
    ((list_issues available limit offset).has_more = true ↔
      limit < available.length - offset) ∧
    (list_issues available limit offset).total =
      offset + (list_issues available limit offset).items.length +
        (if (list_issues available limit offset).has_more then 1 else 0) ∧
    (limit = 10 → offset = 0 → available.length = 11 →
      (list_issues available limit offset).has_more = true ∧
      (list_issues available limit offset).items.length = 10) ∧
    (limit = 10 → offset = 0 → available.length = 10 →
      (list_issues available limit offset).has_more = false ∧
      (list_issues available limit offset).items.length = 10) := by
  refine ⟨rfl, ?_, ?_, rfl, ?_, ?_⟩
  · simp [list_issues, list_all]
  · simp [list_issues, list_all]
  · intro hl ho ha
    subst hl
    subst ho
    constructor
    · simp [list_issues, list_all, ha]
    · simp [list_issues, list_all, ha]
  · intro hl ho ha
    subst hl
    subst ho
    constructor
    · simp [list_issues, list_all, ha]
    · simp [list_issues, list_all, ha]

/-- Claim C3 witness: the pagination theorem applied to concrete stores
of 11 and of 10 issues at `limit=10, offset=0`. -/
theorem c3_witness :
    (list_issues (c3Avail 11) 10 0).has_more = true ∧
    (list_issues (c3Avail 11) 10 0).items.length = 10 ∧
    (list_issues (c3Avail 10) 10 0).has_more = false ∧
    (list_issues (c3Avail 10) 10 0).items.length = 10 := by
  refine ⟨?_, ?_, ?_, ?_⟩
  · exact ((list_issues_pagination (c3Avail 11) 10 0 (by decide)
      (by decide)).2.2.2.2.1 rfl rfl rfl).1
  · exact ((list_issues_pagination (c3Avail 11) 10 0 (by decide)
      (by decide)).2.2.2.2.1 rfl rfl rfl).2
  · exact ((list_issues_pagination (c3Avail 10) 10 0 (by decide)
      (by decide)).2.2.2.2.2 rfl rfl rfl).1
  · exact ((list_issues_pagination (c3Avail 10) 10 0 (by decide)
      (by decide)).2.2.2.2.2 rfl rfl rfl).2

/-- Claim C4: the issue-detail endpoint fails with 404 and a detail
containing "not found" when the issue is absent, with 500 when the issue
exists but its newspaper row is missing, and otherwise returns the issue
with its newspaper and its pages (exactly the issue's pages, in ascending
page-number order). -/
theorem get_issue_detail_spec (s : BrowseStore) (issue_id : Nat) :
    (s.issue_by_id issue_id = none →
      get_issue_detail s issue_id = Except.error ⟨404, "Issue not found"⟩ ∧
      "not found".data <:+: "Issue not found".data) ∧
    (∀ issue, s.issue_by_id issue_id = some issue →
      s.newspaper_by_id issue.newspaper_id = none →
      get_issue_detail s issue_id =
        Except.error ⟨500, "Associated newspaper not found"⟩) ∧
    (∀ issue newspaper, s.issue_by_id issue_id = some issue →
      s.newspaper_by_id issue.newspaper_id = some newspaper →
      get_issue_detail s issue_id =
        Except.ok ⟨issue, newspaper, s.page_store.list_by_issue issue_id⟩) ∧
    List.Sorted pageOrder (s.page_store.list_by_issue issue_id) ∧
    List.Perm (s.page_store.list_by_issue issue_id)
      (s.page_store.pages.filter (fun p => p.issue_id == issue_id)) := by
  refine ⟨?_, ?_, ?_, ?_, ?_⟩
  · intro h
    refine ⟨by simp [get_issue_detail, h], ⟨"Issue ".data, [], by decide⟩⟩
  · intro issue h hn
    simp [get_issue_detail, h, hn]
  · intro issue newspaper h hn
    simp [get_issue_detail, h, hn]
  · exact List.sorted_insertionSort pageOrder _
  · exact List.perm_insertionSort pageOrder _

/-- Claim C4 witness: the detail theorem applied to a concrete store with
a missing issue, an orphaned issue, and an intact issue with two pages. -/
theorem c4_witness :
    (get_issue_detail c4Store 5 = Except.error ⟨404, "Issue not found"⟩ ∧
      "not found".data <:+: "Issue not found".data) ∧
    get_issue_detail c4Store 4 =
      Except.error ⟨500, "Associated newspaper not found"⟩ ∧
    get_issue_detail c4Store 3 =
      Except.ok ⟨c4Issue, c4Newspaper, c4Store.page_store.list_by_issue 3⟩ ∧
    List.Sorted pageOrder (c4Store.page_store.list_by_issue 3) := by
  refine ⟨(get_issue_detail_spec c4Store 5).1 rfl, ?_, ?_, ?_⟩
  · exact (get_issue_detail_spec c4Store 4).2.1 c4IssueOrphan rfl rfl
  · exact (get_issue_detail_spec c4Store 3).2.2.1 c4Issue c4Newspaper rfl rfl
  · exact (get_issue_detail_spec c4Store 3).2.2.2.1

/-- Claim C6: when rasterization fails, `process` raises exactly one
wrapped error whose message contains "Failed to process" and the original
cause text, carries the original cause, and returns no output at all. -/
theorem process_wraps_rasterization_failure (p : PdfDocumentProcessor)
    (convert_from_bytes : List Nat → Nat → String → Except String (List PILImage))
    (save : PILImage → String → List Nat) (file_bytes : List Nat) (e : String)
    (h : convert_from_bytes file_bytes p.dpi p.image_format.toLower =
      Except.error e) :
    p.process convert_from_bytes save file_bytes =
      Except.error ⟨"Failed to process PDF: " ++ e, e⟩ ∧
    "Failed to process".data <:+: ("Failed to process PDF: " ++ e).data ∧
    e.data <:+: ("Failed to process PDF: " ++ e).data ∧
    exceptOutput (p.process convert_from_bytes save file_bytes) = none := by
  have h1 : p.process convert_from_bytes save file_bytes =
      Except.error ⟨"Failed to process PDF: " ++ e, e⟩ := by
    simp [PdfDocumentProcessor.process, h]
  refine ⟨h1, ?_, ?_, by simp [h1, exceptOutput]⟩
  · refine ⟨[], " PDF: ".data ++ e.data, ?_⟩
    have hcat : "Failed to process".data ++ " PDF: ".data =
        "Failed to process PDF: ".data := by decide
    simp [← List.append_assoc, hcat]
  · refine ⟨"Failed to process PDF: ".data, [], ?_⟩
    simp

/-- Claim C6 witness: the wrapping theorem applied to a rasterizer stub
that fails with a concrete cause. -/
theorem c6_witness :
    get_document_processor.process failConvert probeSave [] =
      Except.error ⟨"Failed to process PDF: " ++ "poppler exploded",
        "poppler exploded"⟩ ∧
    "Failed to process".data <:+:
      ("Failed to process PDF: " ++ "poppler exploded").data ∧
    "poppler exploded".data <:+:
      ("Failed to process PDF: " ++ "poppler exploded").data ∧
    exceptOutput (get_document_processor.process failConvert probeSave []) = none :=
  process_wraps_rasterization_failure get_document_processor failConvert probeSave
    [] "poppler exploded" rfl

/-- Claim C7: with N raster-convertible pages, `process` returns exactly
N byte-sequences, one per page in page order, each the encoding of that
page in the configured image format; the default configuration is 300 DPI
and PNG. -/
theorem process_success_pages (p : PdfDocumentProcessor)
    (convert_from_bytes : List Nat → Nat → String → Except String (List PILImage))
    (save : PILImage → String → List Nat) (file_bytes : List Nat)
    (imgs : List PILImage)
    (h : convert_from_bytes file_bytes p.dpi p.image_format.toLower =
      Except.ok imgs) :
    p.process convert_from_bytes save file_bytes =
      Except.ok (imgs.map (fun image => save image p.image_format)) ∧
    (imgs.map (fun image => save image p.image_format)).length = imgs.length ∧
    get_document_processor.dpi = 300 ∧
    get_document_processor.image_format = "PNG" := by
  exact ⟨by simp [PdfDocumentProcessor.process, h], by simp, rfl, rfl⟩

/-- Claim C7 witness: the success theorem applied to a rasterizer stub
that yields two pages. -/
theorem c7_witness :
    get_document_processor.process okConvert probeSave [] =
      Except.ok (([⟨10, 20⟩, ⟨30, 40⟩] : List PILImage).map
        (fun image => probeSave image get_document_processor.image_format)) ∧
    (([⟨10, 20⟩, ⟨30, 40⟩] : List PILImage).map
        (fun image => probeSave image get_document_processor.image_format)).length =
      ([⟨10, 20⟩, ⟨30, 40⟩] : List PILImage).length ∧
    get_document_processor.dpi = 300 ∧
    get_document_processor.image_format = "PNG" :=
  process_success_pages get_document_processor okConvert probeSave []
    [⟨10, 20⟩, ⟨30, 40⟩] rfl

end NewspaperBrowser
